import Mathlib

/-!
Verification of the HTCrystalBall resource-fit preview engine
(htcrystalball.py) against its natural-language specification.

Shallow embedding conventions:
* Python `int` values are `Int`; Python `float` values are exact rationals
  (`Rat`): the program only ever adds, multiplies, divides and compares, so
  rational arithmetic reproduces its numeric decisions.
* Python's true division `a / b` raises `ZeroDivisionError` when `b = 0`;
  it is embedded as `pyDiv : Rat → Rat → Option Rat` and fallible code
  returns `Option`, `none` meaning an uncaught exception.
* `int(x)` truncates toward zero (`pyInt`); `round(x)` rounds half to even
  (`pyRound`); `math.ceil` is `Rat.ceil`.
* Console rendering (rich tables, `str(..)` formatting) is out of scope per
  the spec; a usage cell such as `"4/32 (13%)"` is kept as the structured
  value `UsageVal.frac 4 32 13` that the renderer would format, and the
  `"No GPU ressource!"` sentinel is `UsageVal.noGpu`.
-/

/-- Python `/` on numbers: `ZeroDivisionError` (`none`) when the divisor is 0. -/
def pyDiv (a b : Rat) : Option Rat :=
  if b = 0 then none else some (a / b)

/-- Python `int(x)`: truncation toward zero. -/
def pyInt (q : Rat) : Int :=
  if q < 0 then -(⌊-q⌋) else ⌊q⌋

/-- Python 3 `round(x)` (no digits argument): round half to even, result an int. -/
def pyRound (q : Rat) : Int :=
  let f := ⌊q⌋
  let r := q - (f : Rat)
  if r < 1/2 then f
  else if 1/2 < r then f + 1
  else if f % 2 = 0 then f else f + 1

/-- One `slot_size` entry of a node in `config/slots.json`.
`UtsnameNodename` is absent (`none`) in the raw inventory and is written onto
the entry by `filter_slots`; `TotalSlotGPUs` is only meaningful for gpu-class
entries. -/
structure SlotSize where
  SlotType : String
  TotalSlots : Int
  TotalSlotCpus : Int
  TotalSlotGPUs : Int
  TotalSlotMemory : Rat
  TotalSlotDisk : Rat
  UtsnameNodename : Option String
deriving DecidableEq, Repr

/-- One node entry of the inventory: a node name and its slot-size entries. -/
structure CNode where
  UtsnameNodename : String
  slot_size : List SlotSize
deriving DecidableEq, Repr

/-- Python `str.lower()` on the ASCII unit tokens the validated grammar admits.
(Implemented over the character list because `String.toLower` does not reduce
in the kernel.) -/
def pyLower (s : String) : String :=
  String.mk (s.data.map (fun c => if c.isUpper then Char.ofNat (c.toNat + 32) else c))

/-- Python `float(s)` on a numeric literal `digits[.digits]` of the validated
input grammar, as an exact rational. -/
def parsePyFloat (l : List Char) : Rat :=
  let digitsVal : List Char → Nat := fun t => t.foldl (fun n c => n * 10 + (c.toNat - 48)) 0
  let intPart := l.takeWhile (· ≠ '.')
  match l.dropWhile (· ≠ '.') with
  | [] => (digitsVal intPart : Nat)
  | _ :: frac => (digitsVal intPart : Rat) + (digitsVal frac : Rat) / ((10 : Rat) ^ frac.length)

/-- `split_number_unit`: splits a storage request string into amount and unit,
defaulting to GiB.  The source strips spaces and splits on the regex
`(\d*\.?\d+)`; on the validated input grammar (digits, optional decimal point,
then a unit token) this takes the leading numeric literal and leaves the unit
token as the remainder. -/
def split_number_unit (user_input : String) : Rat × String :=
  if user_input = "" then (0, "GiB")
  else
    let s := user_input.data.filter (fun c => c ≠ ' ')
    let numChars := s.takeWhile (fun c => c.isDigit || c = '.')
    let unitChars := s.dropWhile (fun c => c.isDigit || c = '.')
    let amount := parsePyFloat numChars
    if unitChars = [] then (amount, "GiB") else (amount, String.mk unitChars)

/-- `split_duration_unit`: same splitting for durations, defaulting to minutes. -/
def split_duration_unit (user_input : String) : Rat × String :=
  if user_input = "" then (0, "min")
  else
    let s := user_input.data.filter (fun c => c ≠ ' ')
    let numChars := s.takeWhile (fun c => c.isDigit || c = '.')
    let unitChars := s.dropWhile (fun c => c.isDigit || c = '.')
    let amount := parsePyFloat numChars
    if unitChars = [] then (amount, "min") else (amount, String.mk unitChars)

/-- `calc_to_bin`: converts a storage value to GiB according to the unit string. -/
def calc_to_bin (number : Rat) (unit : String) : Rat :=
  let unit_indicator := pyLower unit
  if unit_indicator = "kb" ∨ unit_indicator = "k" ∨ unit_indicator = "kib" then
    number / (10 ^ 6)
  else if unit_indicator = "mb" ∨ unit_indicator = "m" ∨ unit_indicator = "mib" then
    number / (10 ^ 3)
  else if unit_indicator = "tb" ∨ unit_indicator = "t" ∨ unit_indicator = "tib" then
    number * (10 ^ 3)
  else if unit_indicator = "pb" ∨ unit_indicator = "p" ∨ unit_indicator = "pib" then
    number * (10 ^ 6)
  else
    number

/-- `calc_to_min`: converts a time value to minutes according to the unit string. -/
def calc_to_min (number : Rat) (unit : String) : Rat :=
  let unit_indicator := pyLower unit
  if unit_indicator = "d" ∨ unit_indicator = "dd" then
    number * 24 * 60
  else if unit_indicator = "h" ∨ unit_indicator = "hh" then
    number * 60
  else if unit_indicator = "s" ∨ unit_indicator = "ss" then
    number / 60
  else
    number

/-- The in-place tagging `slot["UtsnameNodename"] = node["UtsnameNodename"]`. -/
def tagSlot (nm : String) (s : SlotSize) : SlotSize :=
  { s with UtsnameNodename := some nm }

/-- Inner loop of `filter_slots` over one node's `slot_size` list: returns the
slots collected into `res` and the node's slot list after the in-place
tagging of the matching entries. -/
def filter_slots_node (nm : String) (slot_type : String) :
    List SlotSize → List SlotSize × List SlotSize
  | [] => ([], [])
  | s :: rest =>
    let (res, upd) := filter_slots_node nm slot_type rest
    if s.SlotType = slot_type then (tagSlot nm s :: res, tagSlot nm s :: upd)
    else (res, s :: upd)

/-- `filter_slots`: collects the slot entries of the requested type, tagging each
matching entry (in place, in the Python source) with its owning node's name.
Because the Python loop mutates the inventory's dictionaries, the embedding
returns both the collected list and the post-state of the inventory. -/
def filter_slots (slots : List CNode) (slot_type : String) :
    List SlotSize × List CNode :=
  match slots with
  | [] => ([], [])
  | node :: rest =>
    let (res₁, upd₁) := filter_slots_node node.UtsnameNodename slot_type node.slot_size
    let (res₂, upd₂) := filter_slots rest slot_type
    (res₁ ++ res₂, { node with slot_size := upd₁ } :: upd₂)

/-- A rendered usage cell of the preview table.  The source stores strings;
`frac req cap pct` stands for the string `"req/cap (pct%)"`, `na` for the
placeholder dashes, `noGpu` for the literal `"No GPU ressource!"`. -/
inductive UsageVal where
  | na
  | noGpu
  | frac (requested : Rat) (capacity : Rat) (percent : Int)
deriving DecidableEq, Repr

/-- `int(round((requested / capacity) * 100))`, faulting when `capacity = 0`,
packaged with the raw numbers as the source's usage string does. -/
def usage_pct (requested capacity : Rat) : Option UsageVal := do
  let q ← pyDiv requested capacity
  pure (UsageVal.frac requested capacity (pyRound (q * 100)))

/-- The `node_dict` capacity summary built by each evaluator (`str(..)` of the
numbers in the source; kept as the numbers themselves). -/
structure NodeDict where
  node : String
  type : String
  total_slots : Int
  cores : Int
  gpus : Option Int
  disk : Rat
  ram : Rat
deriving DecidableEq, Repr

/-- The `preview_node` occupancy record built by each evaluator. -/
structure PreviewNode where
  name : String
  type : String
  fits : String
  core_usage : UsageVal
  gpu_usage : UsageVal
  ram_usage : UsageVal
  sim_jobs : Int
  wall_time_on_idle : Rat
deriving DecidableEq, Repr

/-- `check_dynamic_slots`.  The source initialises `sim_jobs` to a placeholder
dash string and both branches overwrite it before returning, so the field is
kept as an `Int` (placeholder value 0, like `wall_time_on_idle`).  The
`Option.bind` chains spell out Python's left-to-right evaluation, each bound
step a point where a `ZeroDivisionError`/`KeyError` would propagate. -/
def check_dynamic_slots (slot : SlotSize) (num_cpu : Int) (amount_ram : Rat)
    (job_duration : Rat) (num_jobs : Int) : Option (NodeDict × PreviewNode) :=
  let available_cores := slot.TotalSlotCpus
  slot.UtsnameNodename.bind fun nm =>
  let node_dict : NodeDict :=
    { node := nm, type := slot.SlotType, total_slots := slot.TotalSlots,
      cores := slot.TotalSlotCpus, gpus := none,
      disk := slot.TotalSlotDisk, ram := slot.TotalSlotMemory }
  let preview₀ : PreviewNode :=
    { name := nm, type := "dynamic", fits := "NO",
      core_usage := .na, gpu_usage := .na, ram_usage := .na,
      sim_jobs := 0, wall_time_on_idle := 0 }
  (if num_cpu ≤ available_cores ∧ amount_ram ≤ slot.TotalSlotMemory then
    (usage_pct (num_cpu : Rat) (slot.TotalSlotCpus : Rat)).bind fun cu =>
    (usage_pct amount_ram slot.TotalSlotMemory).bind fun ru =>
    (pyDiv (available_cores : Rat) (num_cpu : Rat)).bind fun sjc =>
    (pyDiv slot.TotalSlotMemory amount_ram).bind fun sjm =>
    some { preview₀ with core_usage := cu, ram_usage := ru, fits := "YES",
                         sim_jobs := min (pyInt sjc) (pyInt sjm) }
  else
    (usage_pct (num_cpu : Rat) (slot.TotalSlotCpus : Rat)).bind fun cu =>
    (usage_pct amount_ram slot.TotalSlotMemory).bind fun ru =>
    some { preview₀ with core_usage := cu, sim_jobs := 0, ram_usage := ru,
                         fits := "NO" }).bind fun preview₁ =>
  if num_cpu ≤ slot.TotalSlotCpus ∧ amount_ram ≤ slot.TotalSlotMemory ∧
      job_duration ≠ 0 then
    (pyDiv (slot.TotalSlotCpus : Rat) (num_cpu : Rat)).bind fun cq =>
    let cpu_fits := pyInt cq
    (if amount_ram = 0 then some cpu_fits
     else
       (pyDiv slot.TotalSlotMemory amount_ram).bind fun mq =>
       some (min cpu_fits (pyInt mq))).bind fun jobs_parallel =>
    (pyDiv (num_jobs : Rat) (jobs_parallel : Rat)).bind fun wq =>
    some (node_dict, { preview₁ with wall_time_on_idle := (⌈wq⌉ : Rat) * job_duration })
  else
    some (node_dict, preview₁)

/-- `check_static_slots`. -/
def check_static_slots (slot : SlotSize) (num_cores : Int) (amount_ram : Rat)
    (job_duration : Rat) (num_jobs : Int) : Option (NodeDict × PreviewNode) :=
  let available_slots := slot.TotalSlotCpus
  slot.UtsnameNodename.bind fun nm =>
  let node_dict : NodeDict :=
    { node := nm, type := slot.SlotType, total_slots := slot.TotalSlots,
      cores := slot.TotalSlotCpus, gpus := none,
      disk := slot.TotalSlotDisk, ram := slot.TotalSlotMemory }
  let preview₀ : PreviewNode :=
    { name := nm, type := "static", fits := "NO",
      core_usage := .na, gpu_usage := .na, ram_usage := .na,
      sim_jobs := 0, wall_time_on_idle := 0 }
  if num_cores ≤ slot.TotalSlotCpus ∧ amount_ram ≤ slot.TotalSlotMemory then
    (usage_pct (num_cores : Rat) (slot.TotalSlotCpus : Rat)).bind fun cu =>
    (usage_pct amount_ram slot.TotalSlotMemory).bind fun ru =>
    let preview₁ :=
      { preview₀ with core_usage := cu, sim_jobs := available_slots,
                      ram_usage := ru, fits := "YES" }
    if job_duration ≠ 0 then
      (pyDiv (slot.TotalSlotCpus : Rat) (num_cores : Rat)).bind fun cq =>
      let cpu_fits := pyInt cq
      (if amount_ram = 0 then some cpu_fits
       else
         (pyDiv slot.TotalSlotMemory amount_ram).bind fun mq =>
         some (min cpu_fits (pyInt mq))).bind fun jobs_on_idle_slot =>
      (pyDiv (num_jobs : Rat) (jobs_on_idle_slot : Rat)).bind fun w₁ =>
      (pyDiv w₁ (slot.TotalSlots : Rat)).bind fun w₂ =>
      some (node_dict, { preview₁ with wall_time_on_idle := (⌈w₂⌉ : Rat) * job_duration })
    else
      some (node_dict, preview₁)
  else
    (usage_pct (num_cores : Rat) (slot.TotalSlotCpus : Rat)).bind fun cu =>
    (usage_pct amount_ram slot.TotalSlotMemory).bind fun ru =>
    some (node_dict, { preview₀ with core_usage := cu, sim_jobs := 0,
                                     ram_usage := ru, fits := "NO" })

/-- `check_gpu_slots`. -/
def check_gpu_slots (slot : SlotSize) (num_cores num_gpu : Int) (amount_ram : Rat)
    (job_duration : Rat) (num_jobs : Int) : Option (NodeDict × PreviewNode) :=
  let available_slots := slot.TotalSlotCpus
  slot.UtsnameNodename.bind fun nm =>
  let node_dict : NodeDict :=
    { node := nm, type := slot.SlotType, total_slots := slot.TotalSlots,
      cores := slot.TotalSlotCpus, gpus := some slot.TotalSlotGPUs,
      disk := slot.TotalSlotDisk, ram := slot.TotalSlotMemory }
  let preview₀ : PreviewNode :=
    { name := nm, type := "gpu", fits := "NO",
      core_usage := .na, gpu_usage := .na, ram_usage := .na,
      sim_jobs := 0, wall_time_on_idle := 0 }
  if num_cores ≤ slot.TotalSlotCpus ∧ amount_ram ≤ slot.TotalSlotMemory ∧
      num_gpu ≤ slot.TotalSlotGPUs then
    (usage_pct (num_cores : Rat) (slot.TotalSlotCpus : Rat)).bind fun cu =>
    (usage_pct (num_gpu : Rat) (slot.TotalSlotGPUs : Rat)).bind fun gu =>
    (pyDiv (slot.TotalSlotGPUs : Rat) (num_gpu : Rat)).bind fun sjg =>
    (pyDiv (available_slots : Rat) (num_cores : Rat)).bind fun sjc =>
    (pyDiv slot.TotalSlotMemory amount_ram).bind fun sjm =>
    (usage_pct amount_ram slot.TotalSlotMemory).bind fun ru =>
    let preview₁ :=
      { preview₀ with core_usage := cu, gpu_usage := gu,
                      sim_jobs := min (pyInt sjg) (min (pyInt sjc) (pyInt sjm)),
                      ram_usage := ru, fits := "YES" }
    if job_duration ≠ 0 then
      (pyDiv (slot.TotalSlotCpus : Rat) (num_cores : Rat)).bind fun cq =>
      let cpu_fits := pyInt cq
      (pyDiv (slot.TotalSlotGPUs : Rat) (num_gpu : Rat)).bind fun gq =>
      let gpu_fits := pyInt gq
      (if amount_ram = 0 then some (min cpu_fits gpu_fits)
       else
         (pyDiv slot.TotalSlotMemory amount_ram).bind fun mq =>
         some (min (min cpu_fits gpu_fits) (pyInt mq))).bind fun jobs_on_idle_slot =>
      (pyDiv (num_jobs : Rat) (jobs_on_idle_slot : Rat)).bind fun w₁ =>
      (pyDiv w₁ (slot.TotalSlotGPUs : Rat)).bind fun w₂ =>
      some (node_dict, { preview₁ with wall_time_on_idle := (⌈w₂⌉ : Rat) * job_duration })
    else
      some (node_dict, preview₁)
  else
    (usage_pct (num_cores : Rat) (slot.TotalSlotCpus : Rat)).bind fun cu =>
    (if slot.TotalSlotGPUs = 0 then some UsageVal.noGpu
     else usage_pct (num_gpu : Rat) (slot.TotalSlotGPUs : Rat)).bind fun gu =>
    (usage_pct amount_ram slot.TotalSlotMemory).bind fun ru =>
    some (node_dict, { preview₀ with core_usage := cu, gpu_usage := gu,
                                     sim_jobs := 0, ram_usage := ru, fits := "NO" })

/-- The evaluation loop of `check_slots` over one class list: evaluates each
slot in order, collecting the `(node_dict, preview_node)` pairs; an exception
in any evaluation aborts the whole run. -/
def eval_pairs (f : SlotSize → Option (NodeDict × PreviewNode)) :
    List SlotSize → Option (List (NodeDict × PreviewNode))
  | [] => some []
  | s :: rest =>
    (f s).bind fun r =>
    (eval_pairs f rest).bind fun rs =>
    some (r :: rs)

/-- Sort key relation of `order_node_preview`: descending `sim_jobs`. -/
def sim_ge (a b : PreviewNode) : Prop := b.sim_jobs ≤ a.sim_jobs

instance : DecidableRel sim_ge :=
  fun a b => inferInstanceAs (Decidable (b.sim_jobs ≤ a.sim_jobs))

instance : IsTotal PreviewNode sim_ge :=
  ⟨fun a b => (Int.le_total b.sim_jobs a.sim_jobs).elim Or.inl Or.inr⟩

instance : IsTrans PreviewNode sim_ge :=
  ⟨fun _ _ _ hab hbc => le_trans hbc hab⟩

/-- `order_node_preview`: Python's `sorted(.., key=sim_jobs, reverse=True)` is
a stable descending sort; stable insertion sort with the ≥-on-key relation
computes the same list. -/
def order_node_preview (node_preview : List PreviewNode) : List PreviewNode :=
  List.insertionSort sim_ge node_preview

/-- Python slice `l[:m]`: the first `m` elements for `m ≥ 0`, all but the last
`-m` for `m < 0` (clamped at both ends). -/
def pySliceTo (l : List PreviewNode) (m : Int) : List PreviewNode :=
  if 0 ≤ m then l.take m.toNat else l.take (l.length + m).toNat

/-- Lines 443-445 of `check_slots`: rank the preview list and truncate it to
`maxnodes` entries when `maxnodes` is nonzero and the list is longer. -/
def rank_preview (maxnodes : Int) (l : List PreviewNode) : List PreviewNode :=
  let s := order_node_preview l
  if maxnodes ≠ 0 ∧ maxnodes < (s.length : Int) then pySliceTo s maxnodes else s

/-- Result of `check_slots`: the empty dict `{}` on the no-request path, else
the `slots` capacity view and the ranked `preview` fit view. -/
inductive CheckOut where
  | empty
  | result (slots : List NodeDict) (preview : List PreviewNode)
deriving DecidableEq, Repr

/-- `check_slots`.  Console printing (`pretty_print_input`, `pretty_print_slots`,
`pretty_print_result`) is external presentation and not modelled; `amount_disk`
and `verbose` reach only those calls in the source. -/
def check_slots (static dynamic gpu : List SlotSize) (num_cpu : Int)
    (amount_ram amount_disk : Rat) (num_gpu num_jobs : Int)
    (job_duration : Rat) (maxnodes : Int) (verbose : Bool) : Option CheckOut :=
  if num_cpu ≠ 0 ∧ num_gpu = 0 then
    (eval_pairs
      (fun n => check_dynamic_slots n num_cpu amount_ram job_duration num_jobs)
      dynamic).bind fun dynPairs =>
    (eval_pairs
      (fun n => check_static_slots n num_cpu amount_ram job_duration num_jobs)
      static).bind fun statPairs =>
    let pairs := dynPairs ++ statPairs
    some (CheckOut.result (pairs.map Prod.fst)
      (rank_preview maxnodes (pairs.map Prod.snd)))
  else if num_cpu ≠ 0 ∧ num_gpu ≠ 0 then
    (eval_pairs
      (fun n => check_gpu_slots n num_cpu num_gpu amount_ram job_duration num_jobs)
      gpu).bind fun pairs =>
    some (CheckOut.result (pairs.map Prod.fst)
      (rank_preview maxnodes (pairs.map Prod.snd)))
  else
    some CheckOut.empty

/-- `prepare_checking`.  `define_slots` (configuration-file I/O) is external;
the loaded inventory arrives as `slot_config`.  The boolean is the source's
return value; the `Option CheckOut` component records whether slot evaluation
ran and what it produced (the source prints and discards it). -/
def prepare_checking (slot_config : List CNode) (cpu gpu : Int) (ram disk : String)
    (jobs : Int) (job_duration : String) (maxnodes : Int) (verbose : Bool) :
    Option (Bool × Option CheckOut) :=
  let static_slts := (filter_slots slot_config "static").1
  let cfg₁ := (filter_slots slot_config "static").2
  let dynamic_slts := (filter_slots cfg₁ "dynamic").1
  let cfg₂ := (filter_slots cfg₁ "dynamic").2
  let gpu_slts := (filter_slots cfg₂ "gpu").1
  let ram₁ := calc_to_bin (split_number_unit ram).1 (split_number_unit ram).2
  let disk₁ := calc_to_bin (split_number_unit disk).1 (split_number_unit disk).2
  let dur₁ := calc_to_min (split_duration_unit job_duration).1
    (split_duration_unit job_duration).2
  if cpu = 0 then
    some (false, none)
  else if ram₁ = 0 then
    some (false, none)
  else
    (check_slots static_slts dynamic_slts gpu_slts cpu ram₁ disk₁ gpu
      jobs dur₁ maxnodes verbose).bind fun res =>
    some (true, some res)

/-! ### Concrete instances used by counterexamples and witnesses -/

/-- The spec's static scenario slot: `totalSlots=10, cpuCapacity=8, ramCapacityGiB=64`. -/
def c1_slot : SlotSize :=
  { SlotType := "static", TotalSlots := 10, TotalSlotCpus := 8,
    TotalSlotGPUs := 0, TotalSlotMemory := 64, TotalSlotDisk := 100,
    UtsnameNodename := some "cpu3" }

/-- A dynamic slot with zero CPU capacity (a degenerate inventory record). -/
def c2_slot : SlotSize :=
  { SlotType := "dynamic", TotalSlots := 1, TotalSlotCpus := 0,
    TotalSlotGPUs := 0, TotalSlotMemory := 500, TotalSlotDisk := 100,
    UtsnameNodename := some "cpu4" }

/-- A dynamic slot with zero RAM capacity. -/
def c2m_slot : SlotSize :=
  { SlotType := "dynamic", TotalSlots := 1, TotalSlotCpus := 16,
    TotalSlotGPUs := 0, TotalSlotMemory := 0, TotalSlotDisk := 100,
    UtsnameNodename := some "cpu5" }

/-- A static slot with zero CPU capacity. -/
def c2s_slot : SlotSize :=
  { SlotType := "static", TotalSlots := 4, TotalSlotCpus := 0,
    TotalSlotGPUs := 0, TotalSlotMemory := 64, TotalSlotDisk := 100,
    UtsnameNodename := some "cpu6" }

/-- A static slot with zero RAM capacity. -/
def c2sm_slot : SlotSize :=
  { SlotType := "static", TotalSlots := 4, TotalSlotCpus := 8,
    TotalSlotGPUs := 0, TotalSlotMemory := 0, TotalSlotDisk := 100,
    UtsnameNodename := some "cpu7" }

/-- A gpu slot with zero CPU capacity (GPU capacity present). -/
def c2g_slot : SlotSize :=
  { SlotType := "gpu", TotalSlots := 1, TotalSlotCpus := 0,
    TotalSlotGPUs := 4, TotalSlotMemory := 16, TotalSlotDisk := 100,
    UtsnameNodename := some "gpu2" }

/-- A gpu slot with zero RAM capacity (GPU capacity present). -/
def c2gm_slot : SlotSize :=
  { SlotType := "gpu", TotalSlots := 1, TotalSlotCpus := 8,
    TotalSlotGPUs := 4, TotalSlotMemory := 0, TotalSlotDisk := 100,
    UtsnameNodename := some "gpu3" }

/-- The spec's dynamic scenario slot: `cpuCapacity=32, ramCapacityGiB=500`. -/
def c5_slot : SlotSize :=
  { SlotType := "dynamic", TotalSlots := 1, TotalSlotCpus := 32,
    TotalSlotGPUs := 0, TotalSlotMemory := 500, TotalSlotDisk := 3416,
    UtsnameNodename := some "cpu2" }

def c5_nd : NodeDict :=
  { node := "cpu2", type := "dynamic", total_slots := 1, cores := 32,
    gpus := none, disk := 3416, ram := 500 }

def c5_p : PreviewNode :=
  { name := "cpu2", type := "dynamic", fits := "YES",
    core_usage := .frac 4 32 12, gpu_usage := .na, ram_usage := .frac 16 500 3,
    sim_jobs := 8, wall_time_on_idle := 0 }

/-- A gpu-class slot whose GPU capacity is zero. -/
def c6_slot : SlotSize :=
  { SlotType := "gpu", TotalSlots := 1, TotalSlotCpus := 8,
    TotalSlotGPUs := 0, TotalSlotMemory := 16, TotalSlotDisk := 100,
    UtsnameNodename := some "gpu1" }

def c6_nd : NodeDict :=
  { node := "gpu1", type := "gpu", total_slots := 1, cores := 8,
    gpus := some 0, disk := 100, ram := 16 }

def c6_p : PreviewNode :=
  { name := "gpu1", type := "gpu", fits := "NO",
    core_usage := .frac 1 8 12, gpu_usage := .noGpu, ram_usage := .frac 1 16 6,
    sim_jobs := 0, wall_time_on_idle := 0 }

/-- A one-node inventory whose single static slot entry carries no node tag yet. -/
def c4_inv : List CNode :=
  [{ UtsnameNodename := "cpu1",
     slot_size := [{ SlotType := "static", TotalSlots := 2, TotalSlotCpus := 4,
                     TotalSlotGPUs := 0, TotalSlotMemory := 8, TotalSlotDisk := 50,
                     UtsnameNodename := none }] }]

/-- A preview entry with a given name and `sim_jobs`, for ranking examples. -/
def mk_prev (nm : String) (sj : Int) : PreviewNode :=
  { name := nm, type := "dynamic", fits := "YES", core_usage := .na,
    gpu_usage := .na, ram_usage := .na, sim_jobs := sj, wall_time_on_idle := 0 }

def c7_list : List PreviewNode := [mk_prev "a" 2, mk_prev "b" 5, mk_prev "c" 2]

/-- Spec-side description of `filterByClass` (§4.2): exactly the slot entries
of the class, in the inventory's original relative order, each tagged with its
owning node's name. -/
def class_entries (inv : List CNode) (t : String) : List SlotSize :=
  match inv with
  | [] => []
  | n :: rest =>
    (n.slot_size.filter (fun s => s.SlotType = t)).map (tagSlot n.UtsnameNodename)
      ++ class_entries rest t

/-- Spec-side description of the post-state `filter_slots` leaves behind: the
same inventory, except that every entry of the filtered class now carries its
node-name tag. -/
def tag_class (inv : List CNode) (t : String) : List CNode :=
  inv.map (fun n =>
    let upd := n.slot_size.map
      (fun s => if s.SlotType = t then tagSlot n.UtsnameNodename s else s)
    { n with slot_size := upd })

/-! ### Helper lemmas -/

theorem pyDiv_eq_some {b : Rat} (a : Rat) (hb : b ≠ 0) : pyDiv a b = some (a / b) :=
  if_neg hb

theorem usage_pct_eq_some {b : Rat} (a : Rat) (hb : b ≠ 0) :
    usage_pct a b = some (UsageVal.frac a b (pyRound (a / b * 100))) := by
  simp [usage_pct, pyDiv_eq_some a hb]

theorem pyInt_eq_floor {q : Rat} (h : 0 ≤ q) : pyInt q = ⌊q⌋ := by
  simp [pyInt, not_lt.mpr h]

theorem one_le_pyInt_div {a b : Rat} (hb : 0 < b) (hab : b ≤ a) : 1 ≤ pyInt (a / b) := by
  have h0 : 0 ≤ a / b := le_of_lt (div_pos (lt_of_lt_of_le hb hab) hb)
  rw [pyInt_eq_floor h0, Int.le_floor]
  exact_mod_cast (one_le_div hb).mpr hab

theorem pyRound_of_lt {q : Rat} {n : Int} (hn : ⌊q⌋ = n) (hlt : q - (n : Rat) < 1/2) :
    pyRound q = n := by
  simp only [pyRound, hn]
  rw [if_pos hlt]

theorem pyRound_of_half_even {q : Rat} {n : Int} (hn : ⌊q⌋ = n)
    (heq : q - (n : Rat) = 1/2) (he : n % 2 = 0) : pyRound q = n := by
  simp only [pyRound, hn, heq]
  norm_num [he]

theorem pyRound_of_gt {q : Rat} {n : Int} (hn : ⌊q⌋ = n) (hgt : 1/2 < q - (n : Rat)) :
    pyRound q = n + 1 := by
  simp only [pyRound, hn]
  rw [if_neg (by linarith), if_pos hgt]

/-! ### Claim theorems -/

/-- C5: for every dynamic-class slot and every request with `cpuCores ≥ 1` and
`ramGiB > 0`, whatever fit report the dynamic evaluator produces has
`fits = "YES"` exactly when `cpuCores ≤ cpuCapacity ∧ ramGiB ≤ ramCapacityGiB`,
and `sim_jobs = min(floor(cpuCapacity/cpuCores), floor(ramCapacityGiB/ramGiB))`
when it fits, else `0`. -/
theorem check_dynamic_slots_fit_and_concurrency
    (slot : SlotSize) (num_cpu : Int) (amount_ram job_duration : Rat) (num_jobs : Int)
    (nd : NodeDict) (p : PreviewNode)
    (hcpu : 1 ≤ num_cpu) (hram : 0 < amount_ram)
    (h : check_dynamic_slots slot num_cpu amount_ram job_duration num_jobs = some (nd, p)) :
    (p.fits = "YES" ↔ (num_cpu ≤ slot.TotalSlotCpus ∧ amount_ram ≤ slot.TotalSlotMemory)) ∧
    p.sim_jobs = (if num_cpu ≤ slot.TotalSlotCpus ∧ amount_ram ≤ slot.TotalSlotMemory then
      min ⌊(slot.TotalSlotCpus : Rat) / (num_cpu : Rat)⌋ ⌊slot.TotalSlotMemory / amount_ram⌋
      else 0) := by
  rcases hN : slot.UtsnameNodename with _ | nm <;>
    simp only [check_dynamic_slots, hN, Option.some_bind, Option.none_bind] at h
  · exact Option.noConfusion h
  by_cases hc : num_cpu ≤ slot.TotalSlotCpus ∧ amount_ram ≤ slot.TotalSlotMemory
  · have hcap : ((slot.TotalSlotCpus : Rat)) ≠ 0 := by
      have : 1 ≤ slot.TotalSlotCpus := le_trans hcpu hc.1
      exact_mod_cast (by omega : slot.TotalSlotCpus ≠ 0)
    have hcpuR : ((num_cpu : Rat)) ≠ 0 := by
      exact_mod_cast (by omega : num_cpu ≠ 0)
    have hmem : slot.TotalSlotMemory ≠ 0 := ne_of_gt (lt_of_lt_of_le hram hc.2)
    have hramR : amount_ram ≠ 0 := ne_of_gt hram
    have hcpuPos : (0 : Rat) < (num_cpu : Rat) := by exact_mod_cast hcpu
    have hcapLe : ((num_cpu : Rat)) ≤ ((slot.TotalSlotCpus : Rat)) := by exact_mod_cast hc.1
    have hq1 : (0 : Rat) ≤ (slot.TotalSlotCpus : Rat) / (num_cpu : Rat) :=
      div_nonneg (le_of_lt (lt_of_lt_of_le hcpuPos hcapLe)) (le_of_lt hcpuPos)
    have hq2 : (0 : Rat) ≤ slot.TotalSlotMemory / amount_ram :=
      div_nonneg (le_trans (le_of_lt hram) hc.2) (le_of_lt hram)
    rw [if_pos hc, usage_pct_eq_some _ hcap, usage_pct_eq_some _ hmem,
        pyDiv_eq_some _ hcpuR, pyDiv_eq_some _ hramR] at h
    simp only [Option.some_bind] at h
    by_cases hd : job_duration = 0
    · rw [if_neg (by tauto)] at h
      rw [Option.some_inj, Prod.mk.injEq] at h
      obtain ⟨-, rfl⟩ := h
      exact ⟨by simp [hc], by rw [if_pos hc, pyInt_eq_floor hq1, pyInt_eq_floor hq2]⟩
    · have hjpR : ((min (pyInt ((slot.TotalSlotCpus : Rat) / (num_cpu : Rat)))
          (pyInt (slot.TotalSlotMemory / amount_ram)) : Int) : Rat) ≠ 0 := by
        have hjp : 1 ≤ min (pyInt ((slot.TotalSlotCpus : Rat) / (num_cpu : Rat)))
            (pyInt (slot.TotalSlotMemory / amount_ram)) :=
          le_min (one_le_pyInt_div hcpuPos hcapLe) (one_le_pyInt_div hram hc.2)
        exact_mod_cast (by omega : min (pyInt ((slot.TotalSlotCpus : Rat) / (num_cpu : Rat)))
          (pyInt (slot.TotalSlotMemory / amount_ram)) ≠ 0)
      rw [if_pos ⟨hc.1, hc.2, hd⟩, if_neg hramR] at h
      simp only [Option.some_bind] at h
      rw [pyDiv_eq_some _ hjpR] at h
      simp only [Option.some_bind] at h
      rw [Option.some_inj, Prod.mk.injEq] at h
      obtain ⟨-, rfl⟩ := h
      exact ⟨by simp [hc], by rw [if_pos hc, pyInt_eq_floor hq1, pyInt_eq_floor hq2]⟩
  · rw [if_neg hc] at h
    simp only [Option.bind_eq_some, Option.some_inj] at h
    obtain ⟨p₁, ⟨cu, hcu, ru, hru, hp₁⟩, h⟩ := h
    rw [if_neg (fun hx => hc ⟨hx.1, hx.2.1⟩)] at h
    rw [Option.some_inj, Prod.mk.injEq] at h
    obtain ⟨-, rfl⟩ := h
    subst hp₁
    exact ⟨by simp [hc], by rw [if_neg hc]⟩

/-- C5 witness: the spec's own scenario (32 cores, 500 GiB; request 4 cores,
16 GiB) evaluated concretely, with the claim instantiated on it. -/
theorem check_dynamic_slots_fit_and_concurrency_witness :
    check_dynamic_slots c5_slot 4 16 0 1 = some (c5_nd, c5_p) ∧
    (c5_p.fits = "YES" ↔ ((4 : Int) ≤ c5_slot.TotalSlotCpus ∧ (16 : Rat) ≤ c5_slot.TotalSlotMemory)) ∧
    c5_p.sim_jobs = (if (4 : Int) ≤ c5_slot.TotalSlotCpus ∧ (16 : Rat) ≤ c5_slot.TotalSlotMemory then
      min ⌊(c5_slot.TotalSlotCpus : Rat) / ((4 : Int) : Rat)⌋ ⌊c5_slot.TotalSlotMemory / (16 : Rat)⌋
      else 0) := by
  have heq : check_dynamic_slots c5_slot 4 16 0 1 = some (c5_nd, c5_p) := by
    have hr1 : pyRound ((25 : Rat) / 2) = 12 :=
      pyRound_of_half_even (by norm_num) (by norm_num) (by norm_num)
    have hr2 : pyRound ((16 : Rat) / 5) = 3 :=
      pyRound_of_lt (by norm_num) (by norm_num)
    norm_num [check_dynamic_slots, c5_slot, c5_nd, c5_p, usage_pct, pyDiv, pyInt, hr1, hr2]
  exact ⟨heq, check_dynamic_slots_fit_and_concurrency c5_slot 4 16 0 1 c5_nd c5_p
    (by norm_num) (by norm_num) heq⟩

/-- C6: a gpu-class slot with zero GPU capacity, against a request for at least
one GPU, is reported (whenever its evaluation returns) as non-fitting with the
"No GPU ressource!" sentinel in the GPU usage field — never a numeric
fraction — and zero concurrent jobs; and that slot's result does not abort the
evaluation loop: the remaining slots are still evaluated. -/
theorem check_gpu_slots_zero_gpu_sentinel
    (slot : SlotSize) (rest : List SlotSize) (num_cores num_gpu : Int)
    (amount_ram job_duration : Rat) (num_jobs : Int) (nd : NodeDict) (p : PreviewNode)
    (hg : slot.TotalSlotGPUs = 0) (hgpu : 1 ≤ num_gpu)
    (h : check_gpu_slots slot num_cores num_gpu amount_ram job_duration num_jobs
      = some (nd, p)) :
    p.fits = "NO" ∧ p.gpu_usage = UsageVal.noGpu ∧ p.sim_jobs = 0 ∧
    eval_pairs (fun n => check_gpu_slots n num_cores num_gpu amount_ram job_duration num_jobs)
        (slot :: rest)
      = (eval_pairs
          (fun n => check_gpu_slots n num_cores num_gpu amount_ram job_duration num_jobs)
          rest).map (fun l => (nd, p) :: l) := by
  have hcont : eval_pairs
      (fun n => check_gpu_slots n num_cores num_gpu amount_ram job_duration num_jobs)
      (slot :: rest)
      = (eval_pairs
          (fun n => check_gpu_slots n num_cores num_gpu amount_ram job_duration num_jobs)
          rest).map (fun l => (nd, p) :: l) := by
    cases hrest : eval_pairs
        (fun n => check_gpu_slots n num_cores num_gpu amount_ram job_duration num_jobs)
        rest <;>
      simp [eval_pairs, h, hrest]
  have hcnot : ¬(num_cores ≤ slot.TotalSlotCpus ∧ amount_ram ≤ slot.TotalSlotMemory ∧
      num_gpu ≤ slot.TotalSlotGPUs) := by
    rw [hg]
    rintro ⟨-, -, hx⟩
    omega
  rcases hN : slot.UtsnameNodename with _ | nm <;>
    simp only [check_gpu_slots, hN, Option.some_bind, Option.none_bind] at h
  · exact Option.noConfusion h
  rw [if_neg hcnot, if_pos hg] at h
  simp only [Option.bind_eq_some, Option.some_bind, Option.some_inj] at h
  obtain ⟨cu, hcu, ru, hru, h⟩ := h
  rw [Prod.mk.injEq] at h
  obtain ⟨-, rfl⟩ := h
  exact ⟨rfl, rfl, rfl, hcont⟩

/-- C6 witness: the zero-GPU slot evaluated concretely (request: 1 core, 1 GPU,
1 GiB), with the claim instantiated on it and the empty remainder list. -/
theorem check_gpu_slots_zero_gpu_sentinel_witness :
    check_gpu_slots c6_slot 1 1 1 0 1 = some (c6_nd, c6_p) ∧
    (c6_p.fits = "NO" ∧ c6_p.gpu_usage = UsageVal.noGpu ∧ c6_p.sim_jobs = 0 ∧
      eval_pairs (fun n => check_gpu_slots n 1 1 1 0 1) [c6_slot]
        = (eval_pairs (fun n => check_gpu_slots n 1 1 1 0 1) []).map
            (fun l => (c6_nd, c6_p) :: l)) := by
  have hr1 : pyRound ((25 : Rat) / 2) = 12 :=
    pyRound_of_half_even (by norm_num) (by norm_num) (by norm_num)
  have hr2 : pyRound ((25 : Rat) / 4) = 6 :=
    pyRound_of_lt (by norm_num) (by norm_num)
  have heq : check_gpu_slots c6_slot 1 1 1 0 1 = some (c6_nd, c6_p) := by
    norm_num [check_gpu_slots, c6_slot, c6_nd, c6_p, usage_pct, pyDiv, pyInt, hr1, hr2]
  exact ⟨heq, check_gpu_slots_zero_gpu_sentinel c6_slot [] 1 1 1 0 1 c6_nd c6_p
    rfl (by norm_num) heq⟩

/-- Every preview record the gpu evaluator returns is tagged with slot class
`"gpu"` (both branches build it from the `'type': 'gpu'` template). -/
theorem check_gpu_slots_gives_gpu_type
    (slot : SlotSize) (a b : Int) (r d : Rat) (j : Int) (nd : NodeDict) (p : PreviewNode)
    (h : check_gpu_slots slot a b r d j = some (nd, p)) : p.type = "gpu" := by
  rcases hN : slot.UtsnameNodename with _ | nm <;>
    simp only [check_gpu_slots, hN, Option.some_bind, Option.none_bind] at h
  · exact Option.noConfusion h
  by_cases hc : a ≤ slot.TotalSlotCpus ∧ r ≤ slot.TotalSlotMemory ∧ b ≤ slot.TotalSlotGPUs
  · rw [if_pos hc] at h
    by_cases hd : d = 0
    · simp only [hd, ne_eq, not_true_eq_false, if_false] at h
      simp only [Option.bind_eq_some, Option.some_inj] at h
      obtain ⟨cu, hcu, gu, hgu, sjg, hsjg, sjc, hsjc, sjm, hsjm, ru, hru, h⟩ := h
      rw [Prod.mk.injEq] at h
      obtain ⟨-, rfl⟩ := h
      rfl
    · simp only [if_pos (hd : d ≠ 0)] at h
      simp only [Option.bind_eq_some, Option.some_inj] at h
      obtain ⟨cu, hcu, gu, hgu, sjg, hsjg, sjc, hsjc, sjm, hsjm, ru, hru,
        cq, hcq, gq, hgq, js, hjs, w1, hw1, w2, hw2, h⟩ := h
      rw [Prod.mk.injEq] at h
      obtain ⟨-, rfl⟩ := h
      rfl
  · rw [if_neg hc] at h
    simp only [Option.bind_eq_some, Option.some_inj] at h
    obtain ⟨cu, hcu, gu, hgu, ru, hru, h⟩ := h
    rw [Prod.mk.injEq] at h
    obtain ⟨-, rfl⟩ := h
    rfl

/-- Every pair collected by the evaluation loop comes from evaluating one of
the slots in the list. -/
theorem eval_pairs_mem {f : SlotSize → Option (NodeDict × PreviewNode)}
    {l : List SlotSize} {rs : List (NodeDict × PreviewNode)}
    (h : eval_pairs f l = some rs) {r : NodeDict × PreviewNode} (hr : r ∈ rs) :
    ∃ s ∈ l, f s = some r := by
  induction l generalizing rs with
  | nil =>
    simp only [eval_pairs, Option.some_inj] at h
    subst h
    cases hr
  | cons s rest ih =>
    simp only [eval_pairs, Option.bind_eq_some, Option.some_inj] at h
    obtain ⟨r₀, hr₀, rs₀, hrs₀, rfl⟩ := h
    rcases List.mem_cons.mp hr with rfl | hmem
    · exact ⟨s, List.mem_cons_self .., hr₀⟩
    · obtain ⟨s', hs', hfs'⟩ := ih hrs₀ hmem
      exact ⟨s', List.mem_cons_of_mem _ hs', hfs'⟩

/-- Ranking and truncating never invents preview entries. -/
theorem mem_rank_preview {p : PreviewNode} {m : Int} {l : List PreviewNode}
    (h : p ∈ rank_preview m l) : p ∈ l := by
  have hord : ∀ {x : PreviewNode}, x ∈ order_node_preview l → x ∈ l := by
    intro x hx
    exact (List.mem_insertionSort sim_ge).mp hx
  simp only [rank_preview] at h
  split at h
  · exact hord (by
      unfold pySliceTo at h
      split at h <;> exact List.take_subset _ _ h)
  · exact hord h

/-- C9: with `cpuCores ≥ 1` and `gpuUnits ≥ 1`, `check_slots` produces exactly
what it produces from the gpu slot list alone (the dynamic and static lists are
never evaluated and contribute no entry), and every preview entry carries slot
class `"gpu"`; conversely with `gpuUnits = 0` the gpu slot list is never
evaluated (the output equals the run with no gpu slots at all). -/
theorem check_slots_gpu_request_routes_only_gpu
    (static dynamic gpu : List SlotSize) (num_cpu : Int) (amount_ram amount_disk : Rat)
    (num_gpu num_jobs : Int) (job_duration : Rat) (maxnodes : Int) (verbose : Bool) :
    (1 ≤ num_cpu → 1 ≤ num_gpu →
      check_slots static dynamic gpu num_cpu amount_ram amount_disk num_gpu num_jobs
          job_duration maxnodes verbose
        = check_slots [] [] gpu num_cpu amount_ram amount_disk num_gpu num_jobs
            job_duration maxnodes verbose ∧
      (∀ slots preview,
        check_slots static dynamic gpu num_cpu amount_ram amount_disk num_gpu num_jobs
            job_duration maxnodes verbose = some (CheckOut.result slots preview) →
        ∀ p ∈ preview, p.type = "gpu")) ∧
    (num_gpu = 0 →
      check_slots static dynamic gpu num_cpu amount_ram amount_disk num_gpu num_jobs
          job_duration maxnodes verbose
        = check_slots static dynamic [] num_cpu amount_ram amount_disk num_gpu num_jobs
            job_duration maxnodes verbose) := by
  constructor
  · intro hcpu hgpu
    have hc1 : ¬(num_cpu ≠ 0 ∧ num_gpu = 0) := by
      rintro ⟨-, h0⟩
      omega
    have hc2 : num_cpu ≠ 0 ∧ num_gpu ≠ 0 := ⟨by omega, by omega⟩
    constructor
    · simp only [check_slots, if_neg hc1, if_pos hc2]
    · intro slots preview hres p hp
      simp only [check_slots, if_neg hc1, if_pos hc2] at hres
      simp only [Option.bind_eq_some, Option.some_inj] at hres
      obtain ⟨pairs, hpairs, hres⟩ := hres
      rw [CheckOut.result.injEq] at hres
      obtain ⟨-, hpre⟩ := hres
      rw [← hpre] at hp
      have hp' : p ∈ pairs.map Prod.snd := mem_rank_preview hp
      obtain ⟨pr, hprmem, hsnd⟩ := List.mem_map.mp hp'
      obtain ⟨s, hsmem, hfs⟩ := eval_pairs_mem hpairs hprmem
      obtain ⟨nd₁, p₁⟩ := pr
      rw [← hsnd]
      exact check_gpu_slots_gives_gpu_type s num_cpu num_gpu amount_ram job_duration
        num_jobs nd₁ p₁ hfs
  · intro hg0
    by_cases hcpu0 : num_cpu = 0
    · have hfalse : ¬(num_cpu ≠ 0 ∧ num_gpu = 0) := by tauto
      have hfalse2 : ¬(num_cpu ≠ 0 ∧ num_gpu ≠ 0) := by tauto
      simp only [check_slots, if_neg hfalse, if_neg hfalse2]
    · have hcc : num_cpu ≠ 0 ∧ num_gpu = 0 := ⟨hcpu0, hg0⟩
      simp only [check_slots, if_pos hcc]

/-- C9 witness: a mixed inventory with one slot of each class, evaluated at
`cpuCores = 1, gpuUnits = 1` (gpu-only routing) and at `gpuUnits = 0`
(gpu list ignored). -/
theorem check_slots_gpu_request_routes_only_gpu_witness :
    (check_slots [c1_slot] [c5_slot] [c6_slot] 1 1 0 1 1 0 0 false
      = check_slots [] [] [c6_slot] 1 1 0 1 1 0 0 false) ∧
    (check_slots [c1_slot] [c5_slot] [c6_slot] 1 1 0 0 1 0 0 false
      = check_slots [c1_slot] [c5_slot] [] 1 1 0 0 1 0 0 false) :=
  ⟨((check_slots_gpu_request_routes_only_gpu [c1_slot] [c5_slot] [c6_slot] 1 1 0 1 1 0 0
      false).1 (by norm_num) (by norm_num)).1,
   (check_slots_gpu_request_routes_only_gpu [c1_slot] [c5_slot] [c6_slot] 1 1 0 0 1 0 0
      false).2 rfl⟩

/-- Inserting into a list keeps, for every key value, the key-equal entries in
order: the inserted element lands in front of every entry with the same
`sim_jobs` (it is placed before the first entry it does not strictly beat). -/
theorem filter_orderedInsert (v : Int) (x : PreviewNode) (l : List PreviewNode) :
    (List.orderedInsert sim_ge x l).filter (fun a => a.sim_jobs = v)
      = if x.sim_jobs = v then x :: l.filter (fun a => a.sim_jobs = v)
        else l.filter (fun a => a.sim_jobs = v) := by
  induction l with
  | nil =>
    simp only [List.orderedInsert, List.filter]
    split <;> simp_all
  | cons b t ih =>
    by_cases hxb : sim_ge x b
    · rw [List.orderedInsert, if_pos hxb]
      by_cases hxv : x.sim_jobs = v <;> simp [List.filter_cons, hxv]
    · rw [List.orderedInsert, if_neg hxb]
      have hlt : x.sim_jobs < b.sim_jobs := lt_of_not_le hxb
      by_cases hbv : b.sim_jobs = v
      · have hxv : ¬x.sim_jobs = v := by omega
        simp [List.filter_cons, hbv, hxv, ih]
      · by_cases hxv : x.sim_jobs = v <;> simp [List.filter_cons, hbv, hxv, ih]

/-- Stability of the ranking: for every `sim_jobs` value, the entries with that
value appear in the ranked list exactly as they appeared in the input. -/
theorem filter_order_node_preview (v : Int) (l : List PreviewNode) :
    (order_node_preview l).filter (fun a => a.sim_jobs = v)
      = l.filter (fun a => a.sim_jobs = v) := by
  induction l with
  | nil => rfl
  | cons b t ih =>
    rw [order_node_preview, List.insertionSort, filter_orderedInsert]
    rw [order_node_preview] at ih
    by_cases hbv : b.sim_jobs = v <;> simp [List.filter_cons, hbv, ih]

/-- C7: the Ranker (`order_node_preview` followed by the `maxnodes` truncation
of `check_slots`) is a stable descending sort on `sim_jobs`: the output is
sorted, key-equal entries keep their input order, a positive `maxnodes = k`
smaller than the list truncates to exactly the first `k` entries of the
untruncated ranking, `maxnodes = 0` keeps all entries, and applying the Ranker
twice equals applying it once. -/
theorem rank_preview_stable_sort_truncation_idempotent
    (l : List PreviewNode) (maxnodes : Int) (hm : 0 ≤ maxnodes) :
    List.Sorted sim_ge (order_node_preview l) ∧
    (∀ v : Int, (order_node_preview l).filter (fun a => a.sim_jobs = v)
      = l.filter (fun a => a.sim_jobs = v)) ∧
    (0 < maxnodes → maxnodes < (l.length : Int) →
      rank_preview maxnodes l = (order_node_preview l).take maxnodes.toNat ∧
      (rank_preview maxnodes l).length = maxnodes.toNat) ∧
    (maxnodes = 0 → rank_preview maxnodes l = order_node_preview l ∧
      (rank_preview maxnodes l).length = l.length) ∧
    rank_preview maxnodes (rank_preview maxnodes l) = rank_preview maxnodes l := by
  have hs : List.Sorted sim_ge (order_node_preview l) :=
    List.sorted_insertionSort sim_ge l
  have hlen : (order_node_preview l).length = l.length :=
    List.length_insertionSort sim_ge l
  refine ⟨hs, fun v => filter_order_node_preview v l, ?_, ?_, ?_⟩
  · intro hpos hllen
    have hcond : maxnodes ≠ 0 ∧ maxnodes < ((order_node_preview l).length : Int) := by
      constructor
      · omega
      · rw [hlen]; exact hllen
    have htake : pySliceTo (order_node_preview l) maxnodes
        = (order_node_preview l).take maxnodes.toNat := by
      simp [pySliceTo, hm]
    constructor
    · simp only [rank_preview, if_pos hcond, htake]
    · simp only [rank_preview, if_pos hcond, htake, List.length_take]
      omega
  · intro h0
    subst h0
    have hcond : ¬((0 : Int) ≠ 0 ∧ (0 : Int) < ((order_node_preview l).length : Int)) := by
      rintro ⟨hx, -⟩; exact hx rfl
    constructor
    · simp only [rank_preview, if_neg hcond]
    · simp only [rank_preview, if_neg hcond]
      exact hlen
  · by_cases hcond : maxnodes ≠ 0 ∧ maxnodes < ((order_node_preview l).length : Int)
    · have htake : pySliceTo (order_node_preview l) maxnodes
          = (order_node_preview l).take maxnodes.toNat := by
        simp [pySliceTo, hm]
      have hst : List.Sorted sim_ge ((order_node_preview l).take maxnodes.toNat) :=
        List.Pairwise.sublist (List.take_sublist _ _) hs
      have hordtake : order_node_preview ((order_node_preview l).take maxnodes.toNat)
          = (order_node_preview l).take maxnodes.toNat :=
        List.Sorted.insertionSort_eq hst
      have hlentake : (((order_node_preview l).take maxnodes.toNat).length : Int)
          = maxnodes := by
        rw [List.length_take]
        omega
      have hcond2 : ¬(maxnodes ≠ 0 ∧ maxnodes
          < (((order_node_preview l).take maxnodes.toNat).length : Int)) := by
        rw [hlentake]
        rintro ⟨-, hx⟩
        omega
      simp only [rank_preview, if_pos hcond, htake, hordtake, if_neg hcond2]
    · have hord2 : order_node_preview (order_node_preview l) = order_node_preview l :=
        List.Sorted.insertionSort_eq hs
      have hcond2 : ¬(maxnodes ≠ 0 ∧ maxnodes
          < ((order_node_preview (order_node_preview l)).length : Int)) := by
        rw [hord2]
        exact hcond
      simp only [rank_preview, if_neg hcond, if_neg hcond2, hord2]


/-- C7 witness: a three-entry preview list ranked with `maxnodes = 2`: the
output is the first two entries of the full ranking and has length 2. -/
theorem rank_preview_stable_truncation_witness :
    rank_preview 2 c7_list = (order_node_preview c7_list).take (2 : Int).toNat ∧
    (rank_preview 2 c7_list).length = (2 : Int).toNat :=
  (rank_preview_stable_sort_truncation_idempotent c7_list 2 (by decide)).2.2.1
    (by decide) (by decide)

/-- C8: a request whose CPU count is zero, or whose RAM amount normalises to
zero, makes `prepare_checking` abort before any slot evaluation: it returns
`false` and no preview structure of any kind is produced (`none` in the place
of the `check_slots` output). -/
theorem prepare_checking_aborts_on_zero_cpu_or_ram
    (slot_config : List CNode) (cpu gpu : Int) (ram disk : String) (jobs : Int)
    (job_duration : String) (maxnodes : Int) (verbose : Bool)
    (h : cpu = 0 ∨ calc_to_bin (split_number_unit ram).1 (split_number_unit ram).2 = 0) :
    prepare_checking slot_config cpu gpu ram disk jobs job_duration maxnodes verbose
      = some (false, none) := by
  rcases h with h0 | h0
  · simp only [prepare_checking, if_pos h0]
  · by_cases hc : cpu = 0
    · simp only [prepare_checking, if_pos hc]
    · simp only [prepare_checking, if_neg hc, if_pos h0]

/-- C8 witness: the abort path taken at a zero CPU count, and at an absent RAM
string (which normalises to 0 GiB). -/
theorem prepare_checking_aborts_witness :
    prepare_checking [] 0 0 "10GB" "" 1 "" 0 false = some (false, none) ∧
    prepare_checking [] 4 0 "" "" 1 "" 0 false = some (false, none) := by
  refine ⟨prepare_checking_aborts_on_zero_cpu_or_ram [] 0 0 "10GB" "" 1 "" 0 false
      (Or.inl rfl),
    prepare_checking_aborts_on_zero_cpu_or_ram [] 4 0 "" "" 1 "" 0 false (Or.inr ?_)⟩
  have h1 : split_number_unit "" = (0, "GiB") := by decide
  have h2 : pyLower "GiB" = "gib" := by decide
  rw [h1]
  simp [calc_to_bin, h2]

/-- The requested disk amount is threaded into `check_slots` but reaches only
the (external) console printing, so the computed output is independent of it. -/
theorem check_slots_disk_irrelevant
    (static dynamic gpu : List SlotSize) (num_cpu : Int) (amount_ram : Rat)
    (d₁ d₂ : Rat) (num_gpu num_jobs : Int) (job_duration : Rat) (maxnodes : Int)
    (verbose : Bool) :
    check_slots static dynamic gpu num_cpu amount_ram d₁ num_gpu num_jobs
        job_duration maxnodes verbose
      = check_slots static dynamic gpu num_cpu amount_ram d₂ num_gpu num_jobs
          job_duration maxnodes verbose := rfl

/-- C10: two runs that differ only in the requested disk amount produce
identical results — at the `check_slots` level (identical slots view and
preview view, hence identical `fits`, `sim_jobs` and `wall_time_on_idle`
everywhere) and end-to-end through `prepare_checking`'s parsing of the raw
disk string. -/
theorem disk_request_never_influences_results :
    (∀ (static dynamic gpu : List SlotSize) (num_cpu : Int) (amount_ram : Rat)
      (d₁ d₂ : Rat) (num_gpu num_jobs : Int) (job_duration : Rat) (maxnodes : Int)
      (verbose : Bool),
      check_slots static dynamic gpu num_cpu amount_ram d₁ num_gpu num_jobs
          job_duration maxnodes verbose
        = check_slots static dynamic gpu num_cpu amount_ram d₂ num_gpu num_jobs
            job_duration maxnodes verbose) ∧
    (∀ (slot_config : List CNode) (cpu gpu : Int) (ram disk₁ disk₂ : String)
      (jobs : Int) (job_duration : String) (maxnodes : Int) (verbose : Bool),
      prepare_checking slot_config cpu gpu ram disk₁ jobs job_duration maxnodes verbose
        = prepare_checking slot_config cpu gpu ram disk₂ jobs job_duration maxnodes verbose) := by
  refine ⟨fun _ _ _ _ _ d₁ d₂ _ _ _ _ _ => check_slots_disk_irrelevant _ _ _ _ _ d₁ d₂ _ _ _ _ _,
    fun slot_config cpu gpu ram disk₁ disk₂ jobs job_duration maxnodes verbose => ?_⟩
  simp only [prepare_checking]
  rw [check_slots_disk_irrelevant]

/-- The per-node loop of `filter_slots` computes the tagged class filter and
tags the matching entries of the node's own slot list in place. -/
theorem filter_slots_node_spec (nm t : String) (l : List SlotSize) :
    filter_slots_node nm t l
      = ((l.filter (fun s => s.SlotType = t)).map (tagSlot nm),
         l.map (fun s => if s.SlotType = t then tagSlot nm s else s)) := by
  induction l with
  | nil => rfl
  | cons s rest ih =>
    rw [filter_slots_node, ih]
    by_cases hs : s.SlotType = t <;> simp [List.filter_cons, hs]

/-- C4 (amended): `filter_slots` returns exactly the inventory's slot entries
of the requested class, in their original relative order, each tagged with its
owning node's name — and its only effect on the inventory is writing that
node-name tag onto the matching entries (`tag_class`); non-matching records
are untouched. -/
theorem filter_slots_stable_partition_with_tagging (inv : List CNode) (t : String) :
    filter_slots inv t = (class_entries inv t, tag_class inv t) := by
  induction inv with
  | nil => rfl
  | cons n rest ih =>
    rw [filter_slots, filter_slots_node_spec, ih]
    simp [class_entries, tag_class]

/-- C4 counterexample: filtering is not mutation-free — on a one-node inventory
whose static entry carries no tag, the post-state inventory differs from the
input (the entry has gained the `UtsnameNodename` key). -/
theorem filter_slots_mutates_inventory :
    (filter_slots c4_inv "static").2 ≠ c4_inv := by decide

/-- C3 counterexample: the spelling `"ki"` is accepted by the validator's
grammar (`prefix letter, optional i, optional b`), but `calc_to_bin` does not
apply the k-prefix rule to it: the amount passes through unchanged instead of
being divided by `10^6`. -/
theorem calc_to_bin_bare_i_spelling_breaks_prefix_rule :
    calc_to_bin 10 "ki" = 10 ∧ calc_to_bin 10 "ki" ≠ 10 / 10 ^ 6 := by
  have h : pyLower "ki" = "ki" := by decide
  have h10 : calc_to_bin 10 "ki" = 10 := by simp [calc_to_bin, h]
  refine ⟨h10, ?_⟩
  rw [h10]
  norm_num

/-- C3 (amended): the prefix rules hold for the spellings `x`, `xb`, `xib` of
each prefix letter (case-insensitively, via `str.lower`), while the bare-`i`
spellings `ki/mi/ti/pi` fall through to the identity (GiB) rule like `g`; the
spec's round-trip examples hold. -/
theorem calc_to_bin_prefix_rules_amended :
    (∀ (n : Rat) (u : String),
      ((pyLower u = "k" ∨ pyLower u = "kb" ∨ pyLower u = "kib") →
        calc_to_bin n u = n / 10 ^ 6) ∧
      ((pyLower u = "m" ∨ pyLower u = "mb" ∨ pyLower u = "mib") →
        calc_to_bin n u = n / 10 ^ 3) ∧
      ((pyLower u = "t" ∨ pyLower u = "tb" ∨ pyLower u = "tib") →
        calc_to_bin n u = n * 10 ^ 3) ∧
      ((pyLower u = "p" ∨ pyLower u = "pb" ∨ pyLower u = "pib") →
        calc_to_bin n u = n * 10 ^ 6) ∧
      ((pyLower u = "ki" ∨ pyLower u = "mi" ∨ pyLower u = "ti" ∨ pyLower u = "pi" ∨
          pyLower u = "g" ∨ pyLower u = "gb" ∨ pyLower u = "gi" ∨ pyLower u = "gib") →
        calc_to_bin n u = n)) ∧
    calc_to_bin (split_number_unit "10GB").1 (split_number_unit "10GB").2 = 10 ∧
    calc_to_bin (split_number_unit "100MB").1 (split_number_unit "100MB").2 = 1 / 10 ∧
    split_number_unit "" = (0, "GiB") := by
  refine ⟨fun n u => ⟨?_, ?_, ?_, ?_, ?_⟩, ?_, ?_, by decide⟩
  · rintro (h | h | h) <;> simp [calc_to_bin, h]
  · rintro (h | h | h) <;> simp [calc_to_bin, h]
  · rintro (h | h | h) <;> simp [calc_to_bin, h]
  · rintro (h | h | h) <;> simp [calc_to_bin, h]
  · rintro (h | h | h | h | h | h | h | h) <;> simp [calc_to_bin, h]
  · have hsp : ("10GB".data.filter (fun c => c ≠ ' ')) = ['1', '0', 'G', 'B'] := by decide
    have hlo : pyLower "GB" = "gb" := by decide
    simp [split_number_unit, hsp, parsePyFloat, calc_to_bin, hlo]
  · have hsp : ("100MB".data.filter (fun c => c ≠ ' ')) = ['1', '0', '0', 'M', 'B'] := by decide
    have hlo : pyLower "MB" = "mb" := by decide
    simp [split_number_unit, hsp, parsePyFloat, calc_to_bin, hlo]
    norm_num

/-- C3 witness: the k-prefix rule instantiated on the spelling `"KB"`. -/
theorem calc_to_bin_prefix_rules_amended_witness :
    calc_to_bin 10 "KB" = 10 / 10 ^ 6 :=
  (calc_to_bin_prefix_rules_amended.1 10 "KB").1 (Or.inr (Or.inl (by decide)))

/-- C2 counterexample: the evaluators are not total on zero capacities — a
dynamic slot with `TotalSlotCpus = 0` evaluated against a one-core request
raises `ZeroDivisionError` (the run produces no `FitResult` at all) because
the core-usage division is unguarded. -/
theorem dynamic_evaluator_zero_cpu_capacity_faults :
    check_dynamic_slots c2_slot 1 1 0 1 = none := by
  norm_num [check_dynamic_slots, c2_slot, usage_pct, pyDiv]

set_option maxHeartbeats 1000000 in
/-- C2 (amended): only the GPU-capacity division is guarded.  A gpu slot with
`gpuCapacity = 0` (and nonzero CPU and RAM capacities) short-circuits the GPU
usage field to the sentinel and still returns a `FitResult`; but the divisions
by `cpuCapacity` and by `ramCapacityGiB` are unguarded in every evaluator
(dynamic, static and gpu): a zero CPU capacity against a one-core request, or
a zero RAM capacity against a positive RAM request (with the preceding CPU
division passing), raises `ZeroDivisionError` and no `FitResult` is
produced. -/
theorem only_gpu_division_guarded :
    (∀ (slot : SlotSize) (num_cores num_gpu : Int) (amount_ram job_duration : Rat)
      (num_jobs : Int) (nm : String),
      slot.UtsnameNodename = some nm → slot.TotalSlotGPUs = 0 → 1 ≤ num_gpu →
      slot.TotalSlotCpus ≠ 0 → slot.TotalSlotMemory ≠ 0 →
      ∃ nd p, check_gpu_slots slot num_cores num_gpu amount_ram job_duration num_jobs
          = some (nd, p) ∧ p.gpu_usage = UsageVal.noGpu ∧ p.fits = "NO") ∧
    (∀ (slot : SlotSize) (num_cpu : Int) (amount_ram job_duration : Rat) (num_jobs : Int),
      slot.TotalSlotCpus = 0 → 1 ≤ num_cpu →
      check_dynamic_slots slot num_cpu amount_ram job_duration num_jobs = none) ∧
    (∀ (slot : SlotSize) (num_cpu : Int) (amount_ram job_duration : Rat) (num_jobs : Int),
      slot.TotalSlotMemory = 0 → 0 < amount_ram → slot.TotalSlotCpus ≠ 0 →
      check_dynamic_slots slot num_cpu amount_ram job_duration num_jobs = none) ∧
    (∀ (slot : SlotSize) (num_cores : Int) (amount_ram job_duration : Rat) (num_jobs : Int),
      slot.TotalSlotCpus = 0 → 1 ≤ num_cores →
      check_static_slots slot num_cores amount_ram job_duration num_jobs = none) ∧
    (∀ (slot : SlotSize) (num_cores : Int) (amount_ram job_duration : Rat) (num_jobs : Int),
      slot.TotalSlotMemory = 0 → 0 < amount_ram → slot.TotalSlotCpus ≠ 0 →
      check_static_slots slot num_cores amount_ram job_duration num_jobs = none) ∧
    (∀ (slot : SlotSize) (num_cores num_gpu : Int) (amount_ram job_duration : Rat)
      (num_jobs : Int),
      slot.TotalSlotCpus = 0 → 1 ≤ num_cores →
      check_gpu_slots slot num_cores num_gpu amount_ram job_duration num_jobs = none) ∧
    (∀ (slot : SlotSize) (num_cores num_gpu : Int) (amount_ram job_duration : Rat)
      (num_jobs : Int),
      slot.TotalSlotMemory = 0 → 0 < amount_ram → slot.TotalSlotCpus ≠ 0 →
      check_gpu_slots slot num_cores num_gpu amount_ram job_duration num_jobs = none) := by
  refine ⟨?_, ?_, ?_, ?_, ?_, ?_, ?_⟩
  · intro slot num_cores num_gpu amount_ram job_duration num_jobs nm hnm hg hgpu hcC hmem
    have hcnot : ¬(num_cores ≤ slot.TotalSlotCpus ∧ amount_ram ≤ slot.TotalSlotMemory ∧
        num_gpu ≤ slot.TotalSlotGPUs) := by
      rw [hg]
      rintro ⟨-, -, hx⟩
      omega
    have hcapR : ((slot.TotalSlotCpus : Rat)) ≠ 0 := Int.cast_ne_zero.mpr hcC
    refine ⟨⟨nm, slot.SlotType, slot.TotalSlots, slot.TotalSlotCpus,
        some slot.TotalSlotGPUs, slot.TotalSlotDisk, slot.TotalSlotMemory⟩,
      ⟨nm, "gpu", "NO",
        UsageVal.frac (num_cores : Rat) (slot.TotalSlotCpus : Rat)
          (pyRound ((num_cores : Rat) / (slot.TotalSlotCpus : Rat) * 100)),
        UsageVal.noGpu,
        UsageVal.frac amount_ram slot.TotalSlotMemory
          (pyRound (amount_ram / slot.TotalSlotMemory * 100)),
        0, 0⟩, ?_, rfl, rfl⟩
    simp only [check_gpu_slots, hnm, Option.some_bind, if_neg hcnot, if_pos hg,
      usage_pct_eq_some _ hcapR, usage_pct_eq_some _ hmem, Option.some_bind]
  · intro slot num_cpu amount_ram job_duration num_jobs hcap0 hcpu
    have hcnot : ¬(num_cpu ≤ slot.TotalSlotCpus ∧ amount_ram ≤ slot.TotalSlotMemory) := by
      rw [hcap0]
      rintro ⟨hx, -⟩
      omega
    rcases hN : slot.UtsnameNodename with _ | nm <;>
      simp only [check_dynamic_slots, hN, Option.some_bind, Option.none_bind]
    rw [if_neg hcnot]
    simp [hcap0, usage_pct, pyDiv]
  · intro slot num_cpu amount_ram job_duration num_jobs hmem0 hram hcC
    have hcnot : ¬(num_cpu ≤ slot.TotalSlotCpus ∧ amount_ram ≤ slot.TotalSlotMemory) := by
      rw [hmem0]
      rintro ⟨-, hx⟩
      exact absurd hx (not_le.mpr hram)
    have hcapR : ((slot.TotalSlotCpus : Rat)) ≠ 0 := Int.cast_ne_zero.mpr hcC
    rcases hN : slot.UtsnameNodename with _ | nm <;>
      simp only [check_dynamic_slots, hN, Option.some_bind, Option.none_bind]
    rw [if_neg hcnot, usage_pct_eq_some _ hcapR]
    simp [hmem0, usage_pct, pyDiv]
  · intro slot num_cores amount_ram job_duration num_jobs hcap0 hcores
    have hcnot : ¬(num_cores ≤ slot.TotalSlotCpus ∧ amount_ram ≤ slot.TotalSlotMemory) := by
      rw [hcap0]
      rintro ⟨hx, -⟩
      omega
    rcases hN : slot.UtsnameNodename with _ | nm <;>
      simp only [check_static_slots, hN, Option.some_bind, Option.none_bind]
    rw [if_neg hcnot]
    simp [hcap0, usage_pct, pyDiv]
  · intro slot num_cores amount_ram job_duration num_jobs hmem0 hram hcC
    have hcnot : ¬(num_cores ≤ slot.TotalSlotCpus ∧ amount_ram ≤ slot.TotalSlotMemory) := by
      rw [hmem0]
      rintro ⟨-, hx⟩
      exact absurd hx (not_le.mpr hram)
    have hcapR : ((slot.TotalSlotCpus : Rat)) ≠ 0 := Int.cast_ne_zero.mpr hcC
    rcases hN : slot.UtsnameNodename with _ | nm <;>
      simp only [check_static_slots, hN, Option.some_bind, Option.none_bind]
    rw [if_neg hcnot, usage_pct_eq_some _ hcapR]
    simp [hmem0, usage_pct, pyDiv]
  · intro slot num_cores num_gpu amount_ram job_duration num_jobs hcap0 hcores
    have hcnot : ¬(num_cores ≤ slot.TotalSlotCpus ∧ amount_ram ≤ slot.TotalSlotMemory ∧
        num_gpu ≤ slot.TotalSlotGPUs) := by
      rw [hcap0]
      rintro ⟨hx, -, -⟩
      omega
    rcases hN : slot.UtsnameNodename with _ | nm <;>
      simp only [check_gpu_slots, hN, Option.some_bind, Option.none_bind]
    rw [if_neg hcnot]
    simp [hcap0, usage_pct, pyDiv]
  · intro slot num_cores num_gpu amount_ram job_duration num_jobs hmem0 hram hcC
    have hcnot : ¬(num_cores ≤ slot.TotalSlotCpus ∧ amount_ram ≤ slot.TotalSlotMemory ∧
        num_gpu ≤ slot.TotalSlotGPUs) := by
      rw [hmem0]
      rintro ⟨-, hx, -⟩
      exact absurd hx (not_le.mpr hram)
    have hcapR : ((slot.TotalSlotCpus : Rat)) ≠ 0 := Int.cast_ne_zero.mpr hcC
    rcases hN : slot.UtsnameNodename with _ | nm <;>
      simp only [check_gpu_slots, hN, Option.some_bind, Option.none_bind]
    rw [if_neg hcnot, usage_pct_eq_some _ hcapR]
    simp only [Option.some_bind]
    by_cases hgz : slot.TotalSlotGPUs = 0
    · rw [if_pos hgz]
      simp [hmem0, usage_pct, pyDiv]
    · have hgR : ((slot.TotalSlotGPUs : Rat)) ≠ 0 := Int.cast_ne_zero.mpr hgz
      rw [if_neg hgz, usage_pct_eq_some _ hgR]
      simp [hmem0, usage_pct, pyDiv]

/-- C2 witness: the guard working on a concrete zero-GPU slot, and the six
unguarded-division faults — the CPU and the RAM divisor of each evaluator —
on concrete degenerate slots. -/
theorem only_gpu_division_guarded_witness :
    (∃ nd p, check_gpu_slots c6_slot 2 1 3 0 1 = some (nd, p) ∧
      p.gpu_usage = UsageVal.noGpu ∧ p.fits = "NO") ∧
    check_dynamic_slots c2_slot 2 1 0 1 = none ∧
    check_dynamic_slots c2m_slot 1 1 0 1 = none ∧
    check_static_slots c2s_slot 1 1 0 1 = none ∧
    check_static_slots c2sm_slot 1 1 0 1 = none ∧
    check_gpu_slots c2g_slot 1 1 1 0 1 = none ∧
    check_gpu_slots c2gm_slot 1 1 1 0 1 = none :=
  ⟨only_gpu_division_guarded.1 c6_slot 2 1 3 0 1 "gpu1" rfl rfl (by norm_num)
      (by norm_num [c6_slot]) (by norm_num [c6_slot]),
   only_gpu_division_guarded.2.1 c2_slot 2 1 0 1 rfl (by norm_num),
   only_gpu_division_guarded.2.2.1 c2m_slot 1 1 0 1 rfl (by norm_num)
     (by norm_num [c2m_slot]),
   only_gpu_division_guarded.2.2.2.1 c2s_slot 1 1 0 1 rfl (by norm_num),
   only_gpu_division_guarded.2.2.2.2.1 c2sm_slot 1 1 0 1 rfl (by norm_num)
     (by norm_num [c2sm_slot]),
   only_gpu_division_guarded.2.2.2.2.2.1 c2g_slot 1 1 1 0 1 rfl (by norm_num),
   only_gpu_division_guarded.2.2.2.2.2.2 c2gm_slot 1 1 1 0 1 rfl (by norm_num)
     (by norm_num [c2gm_slot])⟩

/-- C1: the code bug — for the spec's own static scenario (a slot replicated
`TotalSlots = 10` times, each instance with 8 cores and 64 GiB, and a fitting
request for 8 cores / 64 GiB) the evaluator reports `sim_jobs = 8`, the CPU
count of one instance (`available_slots = slot["TotalSlotCpus"]`), not the
replication factor 10 that the all-or-nothing semantics (and the wall-time
formula two lines below, which divides by `TotalSlots`) call for. -/
theorem static_slot_sim_jobs_counts_cpus_not_total_slots :
    (check_static_slots c1_slot 8 64 0 1).map (fun r => (r.2.fits, r.2.sim_jobs))
      = some ("YES", 8) ∧ c1_slot.TotalSlots = 10 ∧ ((8 : Int) ≠ 10) := by
  have hr : pyRound ((100 : Rat)) = 100 := pyRound_of_lt (by norm_num) (by norm_num)
  refine ⟨?_, rfl, by decide⟩
  norm_num [check_static_slots, c1_slot, usage_pct, pyDiv, pyInt, hr]
